import Mathlib

/-!
Shallow embedding of the dingz gateway add-on (src/index.js and the MQTT
variant of the adapter in src/unnamed/part_000).  Pure fragments of the
JavaScript are translated into executable Lean definitions; stateful
handlers become functions from explicit device state to device state.
-/

/-- JSON values as produced by `JSON.parse`.  Numbers keep their literal
digit sequence (`raw`); object member order is kept and later duplicate
keys win on access, as in JavaScript. -/
inductive Json where
  | null
  | bool (b : Bool)
  | num (raw : List Char)
  | str (chars : List Char)
  | arr (items : List Json)
  | obj (members : List (List Char × Json))

/-- Runtime JavaScript values as stored in gateway properties. -/
inductive JSValue where
  | undefined
  | null
  | bool (b : Bool)
  | num (q : Rat)
  | str (s : String)
  | jarr (items : List Json)
  | jobj (members : List (List Char × Json))

/-- Fold a list of decimal digit characters into a natural number. -/
def digitsToNat (ds : List Char) : Nat :=
  ds.foldl (fun a c => a * 10 + (c.toNat - 48)) 0

/-- Evaluate a JSON number literal (sign, integer part, optional fraction,
optional exponent) as an exact rational.  The JavaScript engine rounds to a
binary double; the decimal literals that occur here are kept exact. -/
def numLitToRat (raw : List Char) : Rat :=
  let signAndRest : Int × List Char :=
    match raw with
    | '-' :: r => (-1, r)
    | r => (1, r)
  let sgn := signAndRest.1
  let rest := signAndRest.2
  let intPart := rest.takeWhile Char.isDigit
  let rest2 := rest.drop intPart.length
  let fracAndRest : List Char × List Char :=
    match rest2 with
    | '.' :: r => (r.takeWhile Char.isDigit, r.dropWhile Char.isDigit)
    | r => ([], r)
  let fracDigits := fracAndRest.1
  let rest3 := fracAndRest.2
  let expVal : Int :=
    match rest3 with
    | 'e' :: r | 'E' :: r =>
      match r with
      | '-' :: ds => -(digitsToNat (ds.takeWhile Char.isDigit) : Int)
      | '+' :: ds => (digitsToNat (ds.takeWhile Char.isDigit) : Int)
      | ds => (digitsToNat (ds.takeWhile Char.isDigit) : Int)
    | _ => 0
  let mantNum : Int := sgn * ((digitsToNat intPart * 10 ^ fracDigits.length
    + digitsToNat fracDigits : Nat) : Int)
  if 0 ≤ expVal then mkRat (mantNum * ((10 ^ expVal.toNat : Nat) : Int)) (10 ^ fracDigits.length)
  else mkRat mantNum (10 ^ fracDigits.length * 10 ^ (-expVal).toNat)

/-- Coerce a parsed JSON value into the runtime value stored in a property. -/
def jsonToJS : Json → JSValue
  | .null => .null
  | .bool b => .bool b
  | .num raw => .num (numLitToRat raw)
  | .str cs => .str (String.mk cs)
  | .arr items => .jarr items
  | .obj ms => .jobj ms

/-- Object member access; later duplicate keys shadow earlier ones. -/
def Json.getField (j : Json) (key : List Char) : Option Json :=
  match j with
  | .obj ms => ms.foldl (fun acc m => if m.fst = key then some m.snd else acc) none
  | _ => none

/-- JavaScript member access `message.key`: `undefined` when the key is
missing or the value is not an object. -/
def jsAccess (message : Json) (key : String) : JSValue :=
  match message.getField key.data with
  | some j => jsonToJS j
  | none => .undefined

/-- JavaScript strict equality of an arbitrary value against a string
literal (`message.status === 'on'`). -/
def jsEqStr (v : JSValue) (s : String) : Bool :=
  match v with
  | .str t => t = s
  | _ => false

/-- One gateway property: its cached value and its numeric bounds (bounds
are mutated in place by the poll's thermostat branch). -/
structure PropEntry where
  value : JSValue
  minimum : Rat := 0
  maximum : Rat := 0

/-- The per-device property store, keyed by the stable property id. -/
abbrev PropStore := List (String × PropEntry)

def findEntry (ps : PropStore) (k : String) : Option PropEntry :=
  match ps with
  | [] => none
  | e :: rest => if e.fst = k then some e.snd else findEntry rest k

def findVal (ps : PropStore) (k : String) : Option JSValue :=
  (findEntry ps k).map PropEntry.value

def propExists (ps : PropStore) (k : String) : Bool :=
  (findEntry ps k).isSome

def updateProp (ps : PropStore) (k : String) (f : PropEntry → PropEntry) : PropStore :=
  match ps with
  | [] => []
  | e :: rest => if e.fst = k then (k, f e.snd) :: rest else e :: updateProp rest k f

/-- `findProperty(k)?.setCachedValueAndNotify(v)`: update the stored value
when the property exists, no-op otherwise (a missing property is a
silently-dropped schema miss). -/
def setVal (ps : PropStore) (k : String) (v : JSValue) : PropStore :=
  updateProp ps k (fun e => { e with value := v })

/-- Mutation of a property's `minimum`/`maximum` bounds. -/
def setBounds (ps : PropStore) (k : String) (lo hi : Rat) : PropStore :=
  updateProp ps k (fun e => { e with minimum := lo, maximum := hi })

/-- Capability flags resolved once at device construction. -/
structure Caps where
  shade1 : Bool
  shade2 : Bool
  dimmerGroup1 : Bool
  dimmerGroup2 : Bool
deriving DecidableEq

/-- Capability flags derived from the hardware `dip_config` code
(Dingz.constructor, src/index.js lines 204-213 and src/unnamed/part_000
lines 236-245):
`this.shade1 = dipConfig === 0 || dipConfig === 2;`
`this.shade2 = dipConfig <= 1;`
`this.dimmerGroup1 = dipConfig === 1 || dipConfig === 3;`
`this.dimmerGroup2 = dipConfig >= 2;` -/
def capsOfDip (dip : Int) : Caps :=
  { shade1 := dip == 0 || dip == 2
    shade2 := decide (dip ≤ 1)
    dimmerGroup1 := dip == 1 || dip == 3
    dimmerGroup2 := decide (2 ≤ dip) }

/-- JavaScript `s.startsWith(pre)`. -/
def jsStartsWith (s pre : String) : Bool :=
  pre.data.isPrefixOf s.data

/-- `parseInt(s, 10)` on the strings this adapter feeds it: a leading run of
decimal digits; `none` models `NaN` (no digits). -/
def jsParseInt (s : String) : Option Nat :=
  let ds := s.data.takeWhile Char.isDigit
  if ds.isEmpty then none else some (digitsToNat ds)

/-- A JavaScript exception; `type`/`code` are `none` when the fields are
absent (plain `Error` objects have neither). -/
structure JSError where
  type : Option String
  code : Option String
  message : String

/-- Outcome of the `fetch` call inside `Dingz.apiCall`: either a response
(with its `ok` flag, status, body text and parsed JSON body) or a rejection
carrying an error object. -/
inductive FetchOutcome where
  | response (ok : Bool) (status : Nat) (bodyText : String) (bodyJson : Json)
  | failure (e : JSError)

/-- How `Dingz.apiCall` settles: resolves with JSON, resolves with no
value, or rejects with an error. -/
inductive ApiResult where
  | value (v : Json)
  | unit
  | thrown (e : JSError)

/-- Result of one `apiCall`: how the promise settles and whether
`connectedNotify(false)` was invoked. -/
structure ApiCallResult where
  result : ApiResult
  disconnected : Bool

/-- The `catch` block of `Dingz.apiCall` (src/index.js lines 442-449,
src/unnamed/part_000 lines 645-652): a system error with code ETIMEDOUT or
EHOSTUNREACH flips connectivity and is swallowed; everything else is
re-thrown. -/
def apiCallCatch (e : JSError) : ApiCallResult :=
  if e.type == some "system" && (e.code == some "ETIMEDOUT" || e.code == some "EHOSTUNREACH")
  then { result := .unit, disconnected := true }
  else { result := .thrown e, disconnected := false }

/-- `Dingz.apiCall` (src/index.js lines 421-450, src/unnamed/part_000 lines
624-653).  A 2xx response yields its JSON body unless the status is 204 or
the method is POST; a non-ok response raises an `Error` whose message is
`status: bodyText` (that error has no `type` field, so the catch re-throws
it). -/
def apiCall (hasAddress : Bool) (method : String) (outcome : FetchOutcome) : ApiCallResult :=
  if !hasAddress then { result := .unit, disconnected := false }
  else
    match outcome with
    | .response ok status bodyText bodyJson =>
      if ok && decide (status < 400) then
        if status != 204 && method != "POST" then { result := .value bodyJson, disconnected := false }
        else { result := .unit, disconnected := false }
      else
        apiCallCatch { type := none, code := none, message := toString status ++ ": " ++ bodyText }
    | .failure e => apiCallCatch e

/-- The serialized device representation as far as visibility filtering is
concerned: each property/action key paired with the value of its serialized
`visible` field (`none` when the field is absent). -/
structure DeviceDict where
  properties : List (String × Option Bool)
  actions : List (String × Option Bool)

/-- The deletion loop of `Dingz.asDict`: drop every entry whose `visible`
field is strictly equal to `false`. -/
def filterVisibleEntries (l : List (String × Option Bool)) : List (String × Option Bool) :=
  l.filter (fun e => !(e.snd == some false))

/-- `Dingz.asDict` (src/index.js lines 392-408, src/unnamed/part_000 lines
429-445): serialize, then delete invisible properties and actions. -/
def dingzAsDict (d : DeviceDict) : DeviceDict :=
  { properties := filterVisibleEntries d.properties
    actions := filterVisibleEntries d.actions }

/-- Result of a push-event handler: the discrete events fired (in order)
and the updated property store. -/
structure EventResult where
  events : List String
  props : PropStore

/-- `Dingz.handleGenericEvent` (src/index.js lines 612-649): the
webhook/generic form.  `index` and `action` arrive as strings; the key id
is built from the raw `index` string. -/
def handleGenericEvent (ps : PropStore) (index : String) (action : String) : EventResult :=
  match jsParseInt index with
  | none => { events := [], props := ps }
  | some indexNumber =>
    if indexNumber ≤ 4 then
      let keyID := "key" ++ index
      if action = "1" then { events := [keyID ++ "single"], props := ps }
      else if action = "2" then { events := [keyID ++ "double"], props := ps }
      else if action = "3" then { events := [keyID ++ "long"], props := ps }
      else if action = "20" then { events := [keyID ++ "tripple"], props := ps }
      else if action = "21" then { events := [keyID ++ "quadruple"], props := ps }
      else if action = "8" ∨ action = "begin" then
        { events := [], props := setVal ps keyID (.bool true) }
      else if action = "9" ∨ action = "end" then
        { events := [], props := setVal ps keyID (.bool false) }
      else { events := [], props := ps }
    else if indexNumber = 5 then
      if action = "8" then { events := [], props := setVal ps "motion" (.bool true) }
      else if action = "9" then { events := [], props := setVal ps "motion" (.bool false) }
      else { events := [], props := ps }
    else { events := [], props := ps }

/-- The `event/button` arm of `Dingz.mqttEvent` (src/unnamed/part_000 lines
558-600) for legacy single-token payloads.  The JavaScript `switch` is
translated with first-match semantics, so the source's duplicate
`case "m2"` (the quadruple arm) is kept as the unreachable fifth test
exactly as written. -/
def mqttEventButton (ps : PropStore) (buttonDetail : String) (message : String) : EventResult :=
  let keyID :=
    match jsParseInt buttonDetail with
    | some n => "key" ++ toString (n + 1)
    | none => "keyNaN"
  if keyID = "key5" then { events := [], props := ps }
  else if message = "p" then { events := [], props := setVal ps keyID (.bool true) }
  else if message = "m1" then { events := [keyID ++ "single"], props := setVal ps keyID (.bool false) }
  else if message = "m2" then { events := [keyID ++ "double"], props := setVal ps keyID (.bool false) }
  else if message = "m3" then { events := [keyID ++ "tripple"], props := setVal ps keyID (.bool false) }
  else if message = "m2" then { events := [keyID ++ "quadruple"], props := setVal ps keyID (.bool false) }
  else if message = "h" then { events := [], props := ps }
  else if message = "r" then { events := [keyID ++ "long"], props := setVal ps keyID (.bool false) }
  else if jsStartsWith message "m" then { events := [], props := setVal ps keyID (.bool false) }
  else { events := [], props := ps }

/-- JavaScript `s.endsWith(sfx)`. -/
def jsEndsWith (s sfx : String) : Bool :=
  sfx.data.isSuffixOf s.data

/-- Truncation toward zero, as JavaScript number-to-integer steps use. -/
def jsTrunc (q : Rat) : Int :=
  if q < 0 then -((-q).floor) else q.floor

/-- The JavaScript `%` operator on numbers (fmod, truncated division). -/
def jsMod (a b : Rat) : Rat :=
  a - b * (jsTrunc (a / b) : Rat)

/-- JavaScript `.toUpperCase()`. -/
def jsToUpper (s : String) : String :=
  String.mk (s.data.map Char.toUpper)

/-- `n.toString(16)` for a possibly negative integer. -/
def intToHexJS (i : Int) : String :=
  if i < 0 then "-" ++ String.mk (Nat.toDigits 16 i.natAbs)
  else String.mk (Nat.toDigits 16 i.toNat)

/-- `.padStart(2, '0')`. -/
def padStart2 (s : String) : String :=
  if s.length = 0 then "00" else if s.length = 1 then "0" ++ s else s

/-- `hsv2rgb` (src/index.js lines 21-53, src/unnamed/part_000 lines 17-49),
with the hue/saturation/value components already split out of the `h;s;v`
string, and exact rational arithmetic in place of binary doubles. -/
def hsv2rgb (h s v : Int) : String :=
  let ha : Rat := h
  let sa : Rat := (s : Rat) / 100
  let va : Rat := (v : Rat) / 100
  let c := va * sa
  let x := c * (1 - |jsMod (ha / 60) 2 - 1|)
  let m := va - c
  let rgb : Rat × Rat × Rat :=
    if ha < 60 then (c, x, 0)
    else if ha < 120 then (x, c, 0)
    else if ha < 180 then (0, c, x)
    else if ha < 240 then (0, x, c)
    else if ha < 300 then (x, 0, c)
    else (c, 0, x)
  let r := ((rgb.1 + m) * 255).floor
  let g := ((rgb.2.1 + m) * 255).floor
  let b := ((rgb.2.2 + m) * 255).floor
  jsToUpper (padStart2 (intToHexJS r) ++ padStart2 (intToHexJS g) ++ padStart2 (intToHexJS b))

/-- The `led` object of a `state` snapshot. -/
structure LedSnap where
  isOn : Bool
  mode : String
  hsv : Int × Int × Int
  rgb : String

/-- One entry of the snapshot's `dimmers` array. -/
structure DimmerSnap where
  absolute : Nat
  isOn : Bool
  value : Rat
deriving DecidableEq

/-- One entry of the snapshot's `blinds` array. -/
structure BlindSnap where
  absolute : Nat
  position : Rat
  lamella : Rat

/-- The snapshot's `thermostat` object. -/
structure ThermoSnap where
  active : Bool
  enabled : Bool
  isOn : Bool
  mode : String
  target_temp : Rat
  min_target_temp : Rat
  max_target_temp : Rat

/-- The full-state snapshot returned by the `state` endpoint, as read by
`Dingz.poll`.  `power_outputs` keeps only each entry's `value` field;
`brightness` is `none` for JSON null, `room_temperature` is `none` when the
key is absent. -/
structure Snapshot where
  brightness : Option Rat
  room_temperature : Option Rat
  led : LedSnap
  dimmers : List DimmerSnap
  blinds : List BlindSnap
  power_outputs : List Rat
  thermostat : ThermoSnap

/-- The device state touched by polling, discovery and push handling. -/
structure Device where
  connected : Bool
  caps : Caps
  thermostat : Bool
  thermostatOutput : Nat
  address : String
  props : PropStore

/-- `THERMOSTAT_STATE_TO_MODE[s]`: `undefined` for keys outside the table. -/
def thermostatStateToMode (s : String) : JSValue :=
  if s = "heating" then .str "heat"
  else if s = "cooling" then .str "cool"
  else .undefined

/-- `state.sensors.power_outputs[i].value` (an in-range read in every use
modelled here). -/
def powerAt (outputs : List Rat) (i : Nat) : Rat :=
  outputs.getD i 0

/-- One iteration of the poll's dimmer loop (src/index.js lines 678-685,
src/unnamed/part_000 lines 830-837): an entry is applied only when its
absolute index and the capability groups pass the gate. -/
def pollDimmerStep (g1 g2 : Bool) (outputs : List Rat) (ps : PropStore) (dimmer : DimmerSnap) : PropStore :=
  if (decide (1 < dimmer.absolute) && g2) || (decide (dimmer.absolute ≤ 1) && g1) then
    setVal
      (setVal
        (setVal ps ("dimmer" ++ toString (dimmer.absolute + 1)) (.bool dimmer.isOn))
        ("dimmer" ++ toString (dimmer.absolute + 1) ++ "Brightness") (.num dimmer.value))
      ("dimmer" ++ toString (dimmer.absolute + 1) ++ "Power")
      (.num (powerAt outputs dimmer.absolute))
  else ps

/-- One iteration of the poll's blind loop (src/index.js lines 687-697,
src/unnamed/part_000 lines 839-849); the shade's aggregate power is the
JavaScript `motor1Power || motor2Power` (first value unless it is zero). -/
def pollBlindStep (s1 s2 : Bool) (outputs : List Rat) (ps : PropStore) (blind : BlindSnap) : PropStore :=
  if (blind.absolute == 0 && s1) || (blind.absolute == 1 && s2) then
    setVal
      (setVal
        (setVal ps ("shade" ++ toString (blind.absolute + 1)) (.num blind.position))
        ("shade" ++ toString (blind.absolute + 1) ++ "Lamella") (.num blind.lamella))
      ("shade" ++ toString (blind.absolute + 1) ++ "Power")
      (.num (if powerAt outputs (blind.absolute * 2) = 0
             then powerAt outputs (blind.absolute * 2 + 1)
             else powerAt outputs (blind.absolute * 2)))
  else ps

/-- The poll's brightness write, guarded by the JSON-null check. -/
def pollBrightnessStep (s : Snapshot) (ps : PropStore) : PropStore :=
  match s.brightness with
  | some b => setVal ps "lightLevel" (.num b)
  | none => ps

/-- The poll's room-temperature write, guarded by `hasOwnProperty`. -/
def pollTemperatureStep (s : Snapshot) (ps : PropStore) : PropStore :=
  match s.room_temperature with
  | some t => setVal ps "temperature" (.num t)
  | none => ps

/-- The poll's led and led-color writes. -/
def pollLedSteps (s : Snapshot) (ps : PropStore) : PropStore :=
  setVal (setVal ps "led" (.bool s.led.isOn)) "ledColor"
    (.str ("#" ++ (if s.led.mode = "hsv" then hsv2rgb s.led.hsv.1 s.led.hsv.2.1 s.led.hsv.2.2
                   else s.led.rgb)))

/-- The poll's thermostat branch (src/unnamed/part_000 lines 851-861):
target temperature plus its live bounds, derived mode and state, and the
thermostat valve power on `dimmer(out+1)Power`. -/
def pollThermoStep (hasThermo : Bool) (out : Nat) (s : Snapshot) (ps : PropStore) : PropStore :=
  if s.thermostat.active && hasThermo then
    setVal
      (setVal
        (setVal
          (setBounds (setVal ps "targetTemperature" (.num s.thermostat.target_temp))
            "targetTemperature" s.thermostat.min_target_temp s.thermostat.max_target_temp)
          "thermostatMode"
          (if s.thermostat.enabled then thermostatStateToMode s.thermostat.mode else .str "off"))
        "thermostatState"
        (if s.thermostat.isOn then .str s.thermostat.mode else .str "off"))
      ("dimmer" ++ toString (out + 1) ++ "Power")
      (.num (powerAt s.power_outputs out))
  else ps

/-- The body of `Dingz.poll` after the connectivity guard and the `state`
fetch (src/unnamed/part_000 lines 816-862; the src/index.js variant lines
667-711 differs only in lacking the null-state guard and reading the
thermostat output index from the snapshot itself). -/
def pollAllSteps (d : Device) (s : Snapshot) : PropStore :=
  pollThermoStep d.thermostat d.thermostatOutput s
    (s.blinds.foldl (pollBlindStep d.caps.shade1 d.caps.shade2 s.power_outputs)
      (s.dimmers.foldl (pollDimmerStep d.caps.dimmerGroup1 d.caps.dimmerGroup2 s.power_outputs)
        (pollLedSteps s (pollTemperatureStep s (pollBrightnessStep s d.props)))))

/-- The device after the poll body ran: only the property store changes. -/
def applyPoll (d : Device) (s : Snapshot) : Device :=
  { d with props := pollAllSteps d s }

/-- `Dingz.poll` (src/unnamed/part_000 lines 812-862, src/index.js lines
663-711): a disconnected device short-circuits before any transport call;
otherwise one `state` call is made and the snapshot is reconciled.  The
second component lists the transport calls issued. -/
def Dingz.poll (d : Device) (fetched : Option Snapshot) : Device × List String :=
  if !d.connected then (d, [])
  else
    match fetched with
    | none => (d, ["state"])
    | some s => (applyPoll d s, ["state"])

/-- `Dingz.updateFromDiscovery` (src/index.js lines 651-656,
src/unnamed/part_000 lines 800-805): mark the device connected and adopt
the address when it is a truthy plain host (no ':'). -/
def updateFromDiscovery (d : Device) (address : String) : Device :=
  let d2 : Device := { d with connected := true }
  if (address != "") && !(address.data.contains ':') then { d2 with address := address }
  else d2

/-- The `state/thermostat` arm of `Dingz.mqttEvent` (src/unnamed/part_000
lines 535-539): the mode property receives the raw `status` field, the
state property derives from `status` plus `mode`, and the target
temperature passes through. -/
def applyThermostatPush (ps : PropStore) (message : Json) : PropStore :=
  setVal
    (setVal
      (setVal ps "thermostatMode" (jsAccess message "status"))
      "thermostatState"
      (if jsEqStr (jsAccess message "status") "on" then jsAccess message "mode" else .str "off"))
    "targetTemperature" (jsAccess message "target")

/-- Whitespace skipping inside `JSON.parse`. -/
def skipWs : List Char → List Char
  | c :: rest => if c = ' ' ∨ c = '\n' ∨ c = '\t' ∨ c = '\r' then skipWs rest else c :: rest
  | [] => []

/-- The body of a JSON string after the opening quote.  Escape sequences do
not occur in the payloads modelled here; one makes the parse fail. -/
def parseStringBody : List Char → Option (List Char × List Char)
  | [] => none
  | c :: rest =>
    if c = '"' then some ([], rest)
    else if c = '\\' then none
    else (parseStringBody rest).map (fun p => (c :: p.1, p.2))

/-- Split a leading digit run off a character list. -/
def takeDigits (s : List Char) : List Char × List Char :=
  (s.takeWhile Char.isDigit, s.dropWhile Char.isDigit)

/-- A JSON number literal: sign, integer part, optional fraction, optional
exponent; yields the raw literal and the remaining input. -/
def parseNumLit (s : List Char) : Option (List Char × List Char) :=
  let signAndRest : List Char × List Char :=
    match s with
    | '-' :: r => (['-'], r)
    | r => ([], r)
  let intAndRest := takeDigits signAndRest.2
  if intAndRest.1.isEmpty then none
  else
    let fracAndRest : List Char × List Char :=
      match intAndRest.2 with
      | '.' :: r =>
        let d := takeDigits r
        if d.1.isEmpty then ([], '.' :: r) else ('.' :: d.1, d.2)
      | r => ([], r)
    let expAndRest : List Char × List Char :=
      match fracAndRest.2 with
      | c :: r =>
        if c = 'e' ∨ c = 'E' then
          match r with
          | s2 :: r2 =>
            if s2 = '+' ∨ s2 = '-' then
              let d := takeDigits r2
              if d.1.isEmpty then ([], c :: s2 :: r2) else (c :: s2 :: d.1, d.2)
            else
              let d := takeDigits r
              if d.1.isEmpty then ([], c :: r) else (c :: d.1, d.2)
          | [] => ([], [c])
        else ([], c :: r)
      | [] => ([], [])
    some (signAndRest.1 ++ intAndRest.1 ++ fracAndRest.1 ++ expAndRest.1, expAndRest.2)

mutual

/-- `JSON.parse` value parser; the fuel bounds the recursion depth. -/
def parseJsonVal : Nat → List Char → Option (Json × List Char)
  | 0, _ => none
  | fuel + 1, s =>
    match skipWs s with
    | '{' :: rest => parseObjBody fuel rest
    | '[' :: rest => parseArrBody fuel rest
    | '"' :: rest => (parseStringBody rest).map (fun p => (.str p.1, p.2))
    | 't' :: 'r' :: 'u' :: 'e' :: rest => some (.bool true, rest)
    | 'f' :: 'a' :: 'l' :: 's' :: 'e' :: rest => some (.bool false, rest)
    | 'n' :: 'u' :: 'l' :: 'l' :: rest => some (.null, rest)
    | other => (parseNumLit other).map (fun p => (.num p.1, p.2))

/-- Object body after the opening brace. -/
def parseObjBody : Nat → List Char → Option (Json × List Char)
  | 0, _ => none
  | fuel + 1, s =>
    match skipWs s with
    | '}' :: rest => some (.obj [], rest)
    | other => parseObjMembers fuel other []

/-- One or more `"key": value` members, comma separated, up to the closing
brace. -/
def parseObjMembers : Nat → List Char → List (List Char × Json) → Option (Json × List Char)
  | 0, _, _ => none
  | fuel + 1, s, acc =>
    match skipWs s with
    | '"' :: rest =>
      match parseStringBody rest with
      | none => none
      | some (key, rest2) =>
        match skipWs rest2 with
        | ':' :: rest3 =>
          match parseJsonVal fuel rest3 with
          | none => none
          | some (v, rest4) =>
            match skipWs rest4 with
            | ',' :: rest5 => parseObjMembers fuel rest5 (acc ++ [(key, v)])
            | '}' :: rest5 => some (.obj (acc ++ [(key, v)]), rest5)
            | _ => none
        | _ => none
    | _ => none

/-- Array body after the opening bracket. -/
def parseArrBody : Nat → List Char → Option (Json × List Char)
  | 0, _ => none
  | fuel + 1, s =>
    match skipWs s with
    | ']' :: rest => some (.arr [], rest)
    | other => parseArrItems fuel other []

/-- One or more array items, comma separated, up to the closing bracket. -/
def parseArrItems : Nat → List Char → List Json → Option (Json × List Char)
  | 0, _, _ => none
  | fuel + 1, s, acc =>
    match parseJsonVal fuel s with
    | none => none
    | some (v, rest) =>
      match skipWs rest with
      | ',' :: rest2 => parseArrItems fuel rest2 (acc ++ [v])
      | ']' :: rest2 => some (.arr (acc ++ [v]), rest2)
      | _ => none

end

/-- `JSON.parse`: parse one value and allow only trailing whitespace. -/
def jsonParse (s : List Char) : Option Json :=
  match parseJsonVal (2 * s.length + 2) s with
  | some (j, rest) => if (skipWs rest).isEmpty then some j else none
  | none => none

/-- `String.replace(pat, repl)` with a string pattern: replace only the
first occurrence, scanning left to right. -/
def replaceFirst (pat repl : List Char) : List Char → List Char
  | [] => []
  | c :: rest =>
    if pat.isPrefixOf (c :: rest) then repl ++ (c :: rest).drop pat.length
    else c :: replaceFirst pat repl rest

/-- The malformed key literal `"target:"` (quotes included). -/
def thermostatPattern : List Char := "\"target:\"".data

/-- The repaired text `"target":`. -/
def thermostatReplacement : List Char := "\"target\":".data

/-- The malformed-JSON workaround of the MQTT message handler
(src/unnamed/part_000 lines 99-104): on a topic ending in
`state/thermostat` the payload has its first `"target:"` rewritten to
`"target":` before `JSON.parse`. -/
def mqttPreprocess (topic : String) (payload : List Char) : List Char :=
  if jsEndsWith topic "state/thermostat" then
    replaceFirst thermostatPattern thermostatReplacement payload
  else payload

/-- Parsing of an incoming MQTT payload (the `try` block of the message
handler): preprocess, then `JSON.parse`. -/
def mqttParsePayload (topic : String) (payload : List Char) : Option Json :=
  jsonParse (mqttPreprocess topic payload)

/-- Thermostat property store used by concrete evaluations. -/
def propsThermo : PropStore :=
  [("thermostatMode", { value := JSValue.str "off" }),
   ("thermostatState", { value := JSValue.str "off" }),
   ("targetTemperature", { value := JSValue.num 20, minimum := -55, maximum := 125 })]

/-- A `state/thermostat` push message with the thermostat enabled and
heating. -/
def thermoPushMsg : Json :=
  .obj [("status".data, .str "on".data),
        ("mode".data, .str "heating".data),
        ("target".data, .num "21".data)]

/-- A thermostat-capable device used by concrete evaluations. -/
def deviceThermo : Device :=
  { connected := true
    caps := capsOfDip 1
    thermostat := true
    thermostatOutput := 0
    address := "192.168.1.2"
    props := propsThermo ++ [("dimmer1Power", { value := JSValue.num 0 })] }

/-- A snapshot matching `thermoPushMsg`: thermostat active, enabled and
heating with target 21. -/
def snapThermo : Snapshot :=
  { brightness := none
    room_temperature := none
    led := { isOn := false, mode := "rgb", hsv := (0, 0, 0), rgb := "FF0000" }
    dimmers := []
    blinds := []
    power_outputs := [5]
    thermostat := { active := true, enabled := true, isOn := true, mode := "heating",
                    target_temp := 21, min_target_temp := 5, max_target_temp := 30 } }

/-- A device with dimmer group B absent (dip_config 1) whose thermostat
valve is wired to output 2. -/
def deviceNoGroup2 : Device :=
  { connected := true
    caps := capsOfDip 1
    thermostat := true
    thermostatOutput := 2
    address := "192.168.1.4"
    props := [("dimmer3Power", { value := JSValue.num 0 }),
              ("targetTemperature", { value := JSValue.num 20 }),
              ("thermostatMode", { value := JSValue.str "off" }),
              ("thermostatState", { value := JSValue.str "off" })] }

/-- The same device with the thermostat valve on output 0. -/
def deviceOut0 : Device :=
  { deviceNoGroup2 with thermostatOutput := 0 }

/-- A snapshot whose dimmer array holds an entry with absolute index 2 and
whose thermostat is active. -/
def snapNoGroup2 : Snapshot :=
  { brightness := none
    room_temperature := none
    led := { isOn := false, mode := "rgb", hsv := (0, 0, 0), rgb := "FF0000" }
    dimmers := [{ absolute := 2, isOn := true, value := 50 }]
    blinds := []
    power_outputs := [0, 0, 7, 0]
    thermostat := { active := true, enabled := true, isOn := false, mode := "heating",
                    target_temp := 21, min_target_temp := 5, max_target_temp := 30 } }

/-- A disconnected device used by concrete evaluations. -/
def deviceDisconnected : Device :=
  { connected := false
    caps := capsOfDip 0
    thermostat := false
    thermostatOutput := 0
    address := "192.168.1.3"
    props := [("temperature", { value := JSValue.num 20 })] }

/-- Property store used to evaluate the legacy-token button handler. -/
def propsKey1 : PropStore := [("key1", { value := JSValue.bool true })]

/-- Device dict used to evaluate the visibility filter. -/
def dictShade : DeviceDict :=
  { properties := [("shade1", some true), ("shade1Lamella", some false), ("temperature", some true)]
    actions := [("shade1up", some true), ("dimmer1toggle", some false)] }

/-- Property store with a motion property, for the generic-event handler. -/
def propsMotion : PropStore := [("motion", { value := JSValue.bool false })]

/-- C2: for every dip_config value 0-3 the capability flags are set exactly
by the documented truth tables: shutter channel 1 iff dip is 0 or 2,
shutter channel 2 iff dip ≤ 1, dimmer group A iff dip is 1 or 3, dimmer
group B iff dip ≥ 2. -/
theorem capsOfDip_truth_table (dip : Int) (h0 : 0 ≤ dip) (h3 : dip ≤ 3) :
    ((capsOfDip dip).shade1 = true ↔ (dip = 0 ∨ dip = 2)) ∧
    ((capsOfDip dip).shade2 = true ↔ dip ≤ 1) ∧
    ((capsOfDip dip).dimmerGroup1 = true ↔ (dip = 1 ∨ dip = 3)) ∧
    ((capsOfDip dip).dimmerGroup2 = true ↔ 2 ≤ dip) := by
  interval_cases dip <;> decide

/-- Witness for C2: the truth table evaluated at dip_config 2. -/
theorem capsOfDip_truth_table_witness :
    ((capsOfDip 2).shade1 = true ↔ ((2 : Int) = 0 ∨ (2 : Int) = 2)) ∧
    ((capsOfDip 2).shade2 = true ↔ (2 : Int) ≤ 1) ∧
    ((capsOfDip 2).dimmerGroup1 = true ↔ ((2 : Int) = 1 ∨ (2 : Int) = 3)) ∧
    ((capsOfDip 2).dimmerGroup2 = true ↔ (2 : Int) ≤ 2) :=
  capsOfDip_truth_table 2 (by decide) (by decide)

/-- C10: for every dip_config value 0-3 the resolved flags pair up:
exactly one of shade1/dimmerGroup1 holds and exactly one of
shade2/dimmerGroup2 holds. -/
theorem capsOfDip_pairing_invariant (dip : Int) (h0 : 0 ≤ dip) (h3 : dip ≤ 3) :
    (capsOfDip dip).shade1 ≠ (capsOfDip dip).dimmerGroup1 ∧
    (capsOfDip dip).shade2 ≠ (capsOfDip dip).dimmerGroup2 := by
  interval_cases dip <;> decide

/-- Witness for C10: the pairing invariant evaluated at dip_config 0. -/
theorem capsOfDip_pairing_invariant_witness :
    (capsOfDip 0).shade1 ≠ (capsOfDip 0).dimmerGroup1 ∧
    (capsOfDip 0).shade2 ≠ (capsOfDip 0).dimmerGroup2 :=
  capsOfDip_pairing_invariant 0 (by decide) (by decide)

/-- Updating a key maps the stored entry at that key. -/
theorem findEntry_updateProp_self (ps : PropStore) (k : String) (f : PropEntry → PropEntry) :
    findEntry (updateProp ps k f) k = (findEntry ps k).map f := by
  induction ps with
  | nil => rfl
  | cons e rest ih =>
    by_cases h : e.fst = k
    · simp [updateProp, findEntry, h]
    · simp [updateProp, findEntry, h, ih]

/-- Updating one key leaves every other key's entry untouched. -/
theorem findEntry_updateProp_ne (ps : PropStore) (k k' : String) (f : PropEntry → PropEntry)
    (h : k' ≠ k) : findEntry (updateProp ps k f) k' = findEntry ps k' := by
  induction ps with
  | nil => rfl
  | cons e rest ih =>
    by_cases he : e.fst = k
    · have hk : k ≠ k' := Ne.symm h
      have he' : e.fst ≠ k' := by rw [he]; exact hk
      simp [updateProp, findEntry, he, hk, he']
    · by_cases he2 : e.fst = k'
      · simp [updateProp, findEntry, he, he2, h]
      · simp [updateProp, findEntry, he, he2, ih]

/-- Updating a key does not change which keys exist. -/
theorem propExists_updateProp (ps : PropStore) (k k' : String) (f : PropEntry → PropEntry) :
    propExists (updateProp ps k f) k' = propExists ps k' := by
  unfold propExists
  by_cases h : k' = k
  · subst h; rw [findEntry_updateProp_self]; cases findEntry ps k' <;> rfl
  · rw [findEntry_updateProp_ne ps k k' f h]

/-- Writing a present property stores exactly the written value. -/
theorem findVal_setVal_self (ps : PropStore) (k : String) (v : JSValue)
    (h : propExists ps k = true) : findVal (setVal ps k v) k = some v := by
  unfold findVal setVal
  rw [findEntry_updateProp_self]
  unfold propExists at h
  cases hfe : findEntry ps k with
  | none => rw [hfe] at h; simp at h
  | some e => simp

/-- Writing one property leaves every other property's value untouched. -/
theorem findVal_setVal_ne (ps : PropStore) (k k' : String) (v : JSValue)
    (h : k' ≠ k) : findVal (setVal ps k v) k' = findVal ps k' := by
  unfold findVal setVal
  rw [findEntry_updateProp_ne ps k k' _ h]

/-- C4: every apiCall failure that is a system error with code ETIMEDOUT or
EHOSTUNREACH flips connectivity to disconnected and resolves with no value;
every other failure is re-thrown, and a non-2xx response is re-thrown as an
error carrying the status code and the response body text. -/
theorem apiCall_error_taxonomy (method : String) (outcome : FetchOutcome) :
    (∀ e : JSError, outcome = .failure e → e.type = some "system" →
      (e.code = some "ETIMEDOUT" ∨ e.code = some "EHOSTUNREACH") →
      apiCall true method outcome = { result := .unit, disconnected := true }) ∧
    (∀ e : JSError, outcome = .failure e →
      (e.type ≠ some "system" ∨ (e.code ≠ some "ETIMEDOUT" ∧ e.code ≠ some "EHOSTUNREACH")) →
      apiCall true method outcome = { result := .thrown e, disconnected := false }) ∧
    (∀ (ok : Bool) (status : Nat) (bodyText : String) (bodyJson : Json),
      outcome = .response ok status bodyText bodyJson →
      (ok = false ∨ 400 ≤ status) →
      apiCall true method outcome =
        { result := .thrown { type := none, code := none,
                              message := toString status ++ ": " ++ bodyText },
          disconnected := false }) := by
  refine ⟨?_, ?_, ?_⟩
  · rintro e rfl htype hcode
    rcases hcode with hc | hc <;> simp [apiCall, apiCallCatch, htype, hc]
  · rintro e rfl hother
    rcases hother with ho | ⟨h1, h2⟩
    · simp [apiCall, apiCallCatch, ho]
    · simp [apiCall, apiCallCatch, h1, h2]
  · rintro ok status bodyText bodyJson rfl hbad
    rcases hbad with hb | hb
    · simp [apiCall, apiCallCatch, hb]
    · have hlt : ¬ status < 400 := by omega
      simp [apiCall, apiCallCatch, hlt]

/-- Witness for C4: a timeout disconnects silently, a connection-refused
error is re-thrown, a 404 response is re-thrown with status and body. -/
theorem apiCall_error_taxonomy_witness :
    apiCall true "GET" (.failure { type := some "system", code := some "ETIMEDOUT", message := "t" })
      = { result := .unit, disconnected := true } ∧
    apiCall true "GET" (.failure { type := none, code := some "ECONNREFUSED", message := "r" })
      = { result := .thrown { type := none, code := some "ECONNREFUSED", message := "r" },
          disconnected := false } ∧
    apiCall true "GET" (.response false 404 "Not Found" .null)
      = { result := .thrown { type := none, code := none, message := "404: Not Found" },
          disconnected := false } := by
  refine ⟨?_, ?_, ?_⟩
  · exact (apiCall_error_taxonomy "GET" _).1 _ rfl rfl (Or.inl rfl)
  · exact (apiCall_error_taxonomy "GET" _).2.1 _ rfl (Or.inl (by simp))
  · exact (apiCall_error_taxonomy "GET" _).2.2 false 404 "Not Found" .null rfl (Or.inl rfl)

/-- In a list with no duplicate keys, a key determines its value. -/
theorem assoc_nodup_unique {α : Type} (l : List (String × α)) (hnd : (l.map Prod.fst).Nodup)
    (k : String) (v1 v2 : α) (h1 : (k, v1) ∈ l) (h2 : (k, v2) ∈ l) : v1 = v2 := by
  induction l with
  | nil => cases h1
  | cons e rest ih =>
    rw [List.map_cons, List.nodup_cons] at hnd
    rcases List.mem_cons.mp h1 with h1 | h1 <;> rcases List.mem_cons.mp h2 with h2 | h2
    · rw [← h1] at h2
      exact (congrArg Prod.snd h2).symm
    · exfalso
      apply hnd.1
      rw [← h1]
      simpa using List.mem_map_of_mem Prod.fst h2
    · exfalso
      apply hnd.1
      rw [← h2]
      simpa using List.mem_map_of_mem Prod.fst h1
    · exact ih hnd.2 h1 h2

/-- C9: serializing a device omits every property and action whose visible
flag is false entirely, and keeps every property and action whose visible
flag is not the literal `false`. -/
theorem asDict_filters_invisible (d : DeviceDict)
    (hp : (d.properties.map Prod.fst).Nodup) (ha : (d.actions.map Prod.fst).Nodup) :
    (∀ k : String, (k, some false) ∈ d.properties →
      ∀ v : Option Bool, (k, v) ∉ (dingzAsDict d).properties) ∧
    (∀ (k : String) (v : Option Bool), v ≠ some false → (k, v) ∈ d.properties →
      (k, v) ∈ (dingzAsDict d).properties) ∧
    (∀ k : String, (k, some false) ∈ d.actions →
      ∀ v : Option Bool, (k, v) ∉ (dingzAsDict d).actions) ∧
    (∀ (k : String) (v : Option Bool), v ≠ some false → (k, v) ∈ d.actions →
      (k, v) ∈ (dingzAsDict d).actions) := by
  have habsent : ∀ (l : List (String × Option Bool)), (l.map Prod.fst).Nodup →
      ∀ k : String, (k, some false) ∈ l → ∀ v : Option Bool, (k, v) ∉ filterVisibleEntries l := by
    intro l hnd k hmem v hv
    rw [filterVisibleEntries, List.mem_filter] at hv
    have : v = some false := assoc_nodup_unique l hnd k v (some false) hv.1 hmem
    rw [this] at hv
    simp at hv
  have hkeep : ∀ (l : List (String × Option Bool)) (k : String) (v : Option Bool),
      v ≠ some false → (k, v) ∈ l → (k, v) ∈ filterVisibleEntries l := by
    intro l k v hne hmem
    rw [filterVisibleEntries, List.mem_filter]
    refine ⟨hmem, ?_⟩
    simp [hne]
  exact ⟨habsent d.properties hp, fun k v hv hm => hkeep d.properties k v hv hm,
    habsent d.actions ha, fun k v hv hm => hkeep d.actions k v hv hm⟩

/-- Witness for C9: on a concrete device dict the invisible shade-lamella
property and the invisible dimmer-toggle action are gone while visible
entries remain. -/
theorem asDict_filters_invisible_witness :
    ("shade1Lamella", some false) ∉ (dingzAsDict dictShade).properties ∧
    ("shade1", some true) ∈ (dingzAsDict dictShade).properties ∧
    ("temperature", some true) ∈ (dingzAsDict dictShade).properties ∧
    ("dimmer1toggle", some false) ∉ (dingzAsDict dictShade).actions ∧
    ("shade1up", some true) ∈ (dingzAsDict dictShade).actions := by
  have h := asDict_filters_invisible dictShade (by decide) (by decide)
  exact ⟨h.1 "shade1Lamella" (by decide) (some false),
    h.2.1 "shade1" (some true) (by decide) (by decide),
    h.2.1 "temperature" (some true) (by decide) (by decide),
    h.2.2.1 "dimmer1toggle" (by decide) (some false),
    h.2.2.2 "shade1up" (some true) (by decide) (by decide)⟩

/-- C1 (code bug): on the legacy-token button path, m1, m2 and m3 fire the
single, double and tripple events, but m4 falls through to the default arm:
it fires no event at all and only clears the pressed property, because the
source's quadruple arm is an unreachable duplicate `case "m2"`. -/
theorem m4_token_fires_no_event :
    (mqttEventButton propsKey1 "0" "m1").events = ["key1single"] ∧
    findVal (mqttEventButton propsKey1 "0" "m1").props "key1" = some (JSValue.bool false) ∧
    (mqttEventButton propsKey1 "0" "m2").events = ["key1double"] ∧
    (mqttEventButton propsKey1 "0" "m3").events = ["key1tripple"] ∧
    (mqttEventButton propsKey1 "0" "m4").events = [] ∧
    findVal (mqttEventButton propsKey1 "0" "m4").props "key1" = some (JSValue.bool false) :=
  ⟨rfl, rfl, rfl, rfl, rfl, rfl⟩

/-- C7 (amended): for index 1-4 the numeric action codes 1/2/3/20/21 fire
single/double/long/tripple/quadruple and 8/"begin", 9/"end" set and clear
the pressed property; for index 5 only the numeric codes 8 and 9 toggle the
motion property while the strings "begin"/"end" cause no state change; any
index above 5 causes no state change. -/
theorem handleGenericEvent_mapping (ps : PropStore) (idx : String)
    (hidx : idx ∈ ["1", "2", "3", "4"])
    (hkey : propExists ps ("key" ++ idx) = true) :
    (handleGenericEvent ps idx "1").events = ["key" ++ idx ++ "single"] ∧
    (handleGenericEvent ps idx "2").events = ["key" ++ idx ++ "double"] ∧
    (handleGenericEvent ps idx "3").events = ["key" ++ idx ++ "long"] ∧
    (handleGenericEvent ps idx "20").events = ["key" ++ idx ++ "tripple"] ∧
    (handleGenericEvent ps idx "21").events = ["key" ++ idx ++ "quadruple"] ∧
    findVal (handleGenericEvent ps idx "8").props ("key" ++ idx) = some (JSValue.bool true) ∧
    findVal (handleGenericEvent ps idx "begin").props ("key" ++ idx) = some (JSValue.bool true) ∧
    findVal (handleGenericEvent ps idx "9").props ("key" ++ idx) = some (JSValue.bool false) ∧
    findVal (handleGenericEvent ps idx "end").props ("key" ++ idx) = some (JSValue.bool false) ∧
    (propExists ps "motion" = true →
      findVal (handleGenericEvent ps "5" "8").props "motion" = some (JSValue.bool true) ∧
      findVal (handleGenericEvent ps "5" "9").props "motion" = some (JSValue.bool false)) ∧
    handleGenericEvent ps "5" "begin" = { events := [], props := ps } ∧
    handleGenericEvent ps "5" "end" = { events := [], props := ps } ∧
    (∀ (idx2 : String) (n : Nat) (act : String), jsParseInt idx2 = some n → 5 < n →
      handleGenericEvent ps idx2 act = { events := [], props := ps }) := by
  have habove : ∀ (idx2 : String) (n : Nat) (act : String), jsParseInt idx2 = some n → 5 < n →
      handleGenericEvent ps idx2 act = { events := [], props := ps } := by
    intro idx2 n act hparse hn
    unfold handleGenericEvent
    rw [hparse]
    have h4 : ¬ n ≤ 4 := by omega
    have h5 : ¬ n = 5 := by omega
    simp [h4, h5]
  have hmot : propExists ps "motion" = true →
      findVal (handleGenericEvent ps "5" "8").props "motion" = some (JSValue.bool true) ∧
      findVal (handleGenericEvent ps "5" "9").props "motion" = some (JSValue.bool false) :=
    fun hm => ⟨findVal_setVal_self ps "motion" _ hm, findVal_setVal_self ps "motion" _ hm⟩
  simp only [List.mem_cons, List.not_mem_nil, or_false] at hidx
  rcases hidx with rfl | rfl | rfl | rfl <;>
    exact ⟨rfl, rfl, rfl, rfl, rfl,
      findVal_setVal_self ps _ _ hkey, findVal_setVal_self ps _ _ hkey,
      findVal_setVal_self ps _ _ hkey, findVal_setVal_self ps _ _ hkey,
      hmot, rfl, rfl, habove⟩

/-- Witness for C7: the amended mapping evaluated at index 1 on a store
holding the key and motion properties. -/
theorem handleGenericEvent_mapping_witness :
    (handleGenericEvent [("key1", { value := JSValue.bool false }), ("motion", { value := JSValue.bool false })] "1" "1").events = ["key1single"] ∧
    findVal (handleGenericEvent [("key1", { value := JSValue.bool false }), ("motion", { value := JSValue.bool false })] "1" "8").props "key1" = some (JSValue.bool true) := by
  have h := handleGenericEvent_mapping
    [("key1", { value := JSValue.bool false }), ("motion", { value := JSValue.bool false })] "1"
    (by simp) (by decide)
  exact ⟨h.1, h.2.2.2.2.2.1⟩

/-- C7 counterexample: a generic event with index 5 and the string action
"begin" does not set the motion property; the handler leaves the state
completely unchanged. -/
theorem genericEvent_index5_begin_ignored :
    handleGenericEvent propsMotion "5" "begin" = { events := [], props := propsMotion } ∧
    findVal (handleGenericEvent propsMotion "5" "begin").props "motion" = some (JSValue.bool false) ∧
    findVal (handleGenericEvent propsMotion "5" "begin").props "motion" ≠ some (JSValue.bool true) := by
  refine ⟨rfl, rfl, ?_⟩
  intro h
  have h2 : JSValue.bool false = JSValue.bool true :=
    Option.some.inj (by rw [← h]; rfl)
  exact Bool.noConfusion (JSValue.bool.inj h2)

/-- Specialization of key-disjoint updates to `setVal`. -/
theorem findEntry_setVal_ne (ps : PropStore) (k k' : String) (v : JSValue)
    (h : k' ≠ k) : findEntry (setVal ps k v) k' = findEntry ps k' :=
  findEntry_updateProp_ne ps k k' _ h

/-- Specialization of key-disjoint updates to `setBounds`. -/
theorem findEntry_setBounds_ne (ps : PropStore) (k k' : String) (lo hi : Rat)
    (h : k' ≠ k) : findEntry (setBounds ps k lo hi) k' = findEntry ps k' :=
  findEntry_updateProp_ne ps k k' _ h

/-- `setVal` does not change which keys exist. -/
theorem propExists_setVal (ps : PropStore) (k k' : String) (v : JSValue) :
    propExists (setVal ps k v) k' = propExists ps k' :=
  propExists_updateProp ps k k' _

/-- A fold whose every step preserves a key's entry preserves it overall. -/
theorem foldl_findEntry_invariant {α : Type} (f : PropStore → α → PropStore) (k : String)
    (hf : ∀ ps x, findEntry (f ps x) k = findEntry ps k) :
    ∀ (l : List α) (ps : PropStore), findEntry (l.foldl f ps) k = findEntry ps k := by
  intro l
  induction l with
  | nil => intro ps; rfl
  | cons x xs ih => intro ps; rw [List.foldl_cons, ih, hf]

/-- C3: a poll against a device whose connected flag is false returns with
no transport call and no property mutation (so the device also stays
disconnected under polling alone), and an updateFromDiscovery event sets
the device connected again. -/
theorem poll_disconnected_is_noop (d : Device) (fetched : Option Snapshot) (address : String)
    (h : d.connected = false) :
    Dingz.poll d fetched = (d, []) ∧
    (updateFromDiscovery d address).connected = true := by
  constructor
  · unfold Dingz.poll
    rw [h]
    rfl
  · unfold updateFromDiscovery
    split <;> rfl

/-- Witness for C3: a concrete disconnected device ignores the poll and is
reconnected by discovery. -/
theorem poll_disconnected_is_noop_witness :
    Dingz.poll deviceDisconnected (some snapThermo) = (deviceDisconnected, []) ∧
    (updateFromDiscovery deviceDisconnected "192.168.1.9").connected = true :=
  poll_disconnected_is_noop deviceDisconnected (some snapThermo) "192.168.1.9" rfl

/-- C8 (code bug): on the push path the thermostat mode property receives
the raw `status` field ("on"), not 'off'/'heat'/'cool' derived from the
enabled flag and the heat/cool enum, while the poll path at the matching
snapshot derives "heat"; the push path's state and target-temperature
writes do behave as described. -/
theorem thermostat_push_mode_not_derived :
    findVal (applyThermostatPush propsThermo thermoPushMsg) "thermostatMode"
      = some (JSValue.str "on") ∧
    findVal (applyThermostatPush propsThermo thermoPushMsg) "thermostatState"
      = some (JSValue.str "heating") ∧
    findVal (applyThermostatPush propsThermo thermoPushMsg) "targetTemperature"
      = some (JSValue.num 21) ∧
    findVal (applyPoll deviceThermo snapThermo).props "thermostatMode"
      = some (JSValue.str "heat") ∧
    findVal (applyPoll deviceThermo snapThermo).props "thermostatState"
      = some (JSValue.str "heating") := by
  refine ⟨rfl, rfl, ?_, rfl, rfl⟩
  have h21 : numLitToRat "21".data = (21 : Rat) := by decide
  rw [← h21]
  rfl

/-- The brightness write touches only `lightLevel`. -/
theorem pollBrightnessStep_preserves (s : Snapshot) (ps : PropStore) (k : String)
    (h : k ≠ "lightLevel") :
    findEntry (pollBrightnessStep s ps) k = findEntry ps k := by
  unfold pollBrightnessStep
  cases hb : s.brightness with
  | none => rfl
  | some b => exact findEntry_setVal_ne ps "lightLevel" k _ h

/-- The room-temperature write touches only `temperature`. -/
theorem pollTemperatureStep_preserves (s : Snapshot) (ps : PropStore) (k : String)
    (h : k ≠ "temperature") :
    findEntry (pollTemperatureStep s ps) k = findEntry ps k := by
  unfold pollTemperatureStep
  cases ht : s.room_temperature with
  | none => rfl
  | some t => exact findEntry_setVal_ne ps "temperature" k _ h

/-- The led writes touch only `led` and `ledColor`. -/
theorem pollLedSteps_preserves (s : Snapshot) (ps : PropStore) (k : String)
    (h1 : k ≠ "led") (h2 : k ≠ "ledColor") :
    findEntry (pollLedSteps s ps) k = findEntry ps k := by
  unfold pollLedSteps
  rw [findEntry_setVal_ne _ _ _ _ h2, findEntry_setVal_ne _ _ _ _ h1]

/-- The thermostat branch leaves the dimmer 3/4 properties alone whenever
it is skipped or its valve output is at most 1. -/
theorem pollThermoStep_preserves (hasThermo : Bool) (out : Nat) (s : Snapshot) (ps : PropStore)
    (k : String)
    (hk : k ∈ ["dimmer3", "dimmer3Brightness", "dimmer3Power",
               "dimmer4", "dimmer4Brightness", "dimmer4Power"])
    (hth : hasThermo = false ∨ s.thermostat.active = false ∨ out ≤ 1) :
    findEntry (pollThermoStep hasThermo out s ps) k = findEntry ps k := by
  unfold pollThermoStep
  by_cases hcond : (s.thermostat.active && hasThermo) = true
  · rw [if_pos hcond]
    have hout : out ≤ 1 := by
      rcases hth with h | h | h
      · rw [h] at hcond; simp at hcond
      · rw [h] at hcond; simp at hcond
      · exact h
    have h01 : out = 0 ∨ out = 1 := by omega
    rcases h01 with h0 | h0 <;> subst h0 <;> fin_cases hk <;>
      rw [findEntry_setVal_ne _ _ _ _ (by decide),
          findEntry_setVal_ne _ _ _ _ (by decide),
          findEntry_setVal_ne _ _ _ _ (by decide),
          findEntry_setBounds_ne _ _ _ _ _ (by decide),
          findEntry_setVal_ne _ _ _ _ (by decide)]
  · rw [if_neg hcond]

/-- With dimmer group B absent, one dimmer-loop step never touches the
dimmer 3/4 properties: entries above index 1 are gated out entirely and
entries at most 1 write only dimmer 1/2 keys. -/
theorem pollDimmerStep_high_keys (g1 : Bool) (outputs : List Rat) (ps : PropStore)
    (dimmer : DimmerSnap) (k : String)
    (hk : k ∈ ["dimmer3", "dimmer3Brightness", "dimmer3Power",
               "dimmer4", "dimmer4Brightness", "dimmer4Power"]) :
    findEntry (pollDimmerStep g1 false outputs ps dimmer) k = findEntry ps k := by
  unfold pollDimmerStep
  by_cases hcond : ((decide (1 < dimmer.absolute) && false)
      || (decide (dimmer.absolute ≤ 1) && g1)) = true
  · rw [if_pos hcond]
    have habs : dimmer.absolute ≤ 1 := by
      simp only [Bool.and_false, Bool.false_or, Bool.and_eq_true, decide_eq_true_eq] at hcond
      exact hcond.1
    have h01 : dimmer.absolute = 0 ∨ dimmer.absolute = 1 := by omega
    rcases h01 with h0 | h0 <;> rw [h0] <;> fin_cases hk <;>
      rw [findEntry_setVal_ne _ _ _ _ (by decide),
          findEntry_setVal_ne _ _ _ _ (by decide),
          findEntry_setVal_ne _ _ _ _ (by decide)]
  · rw [if_neg hcond]

/-- A blind-loop step writes only shade 1/2 keys. -/
theorem pollBlindStep_other_keys (s1 s2 : Bool) (outputs : List Rat) (ps : PropStore)
    (blind : BlindSnap) (k : String)
    (hk : k ∈ ["dimmer3", "dimmer3Brightness", "dimmer3Power",
               "dimmer4", "dimmer4Brightness", "dimmer4Power"]) :
    findEntry (pollBlindStep s1 s2 outputs ps blind) k = findEntry ps k := by
  unfold pollBlindStep
  by_cases hcond : ((blind.absolute == 0 && s1) || (blind.absolute == 1 && s2)) = true
  · rw [if_pos hcond]
    have h01 : blind.absolute = 0 ∨ blind.absolute = 1 := by
      simp only [Bool.or_eq_true, Bool.and_eq_true, beq_iff_eq] at hcond
      rcases hcond with h | h
      · exact Or.inl h.1
      · exact Or.inr h.1
    rcases h01 with h0 | h0 <;> rw [h0] <;> fin_cases hk <;>
      rw [findEntry_setVal_ne _ _ _ _ (by decide),
          findEntry_setVal_ne _ _ _ _ (by decide),
          findEntry_setVal_ne _ _ _ _ (by decide)]
  · rw [if_neg hcond]

/-- C6 (amended): a poll-snapshot dimmer entry is applied only when the
gate over its absolute index and the owning capability group passes (index
above 1 needs dimmer group B, index at most 1 needs group A); when dimmer
group B is absent and the thermostat branch does not run against a valve
output above 1 (thermostat absent, snapshot thermostat inactive, or valve
output at most 1), a poll leaves the dimmer 3/4 on-off, brightness and
power properties unchanged even if the snapshot contains entries with
absolute index 2 or more. -/
theorem poll_dimmerGroup2_absent_gating (d : Device) (s : Snapshot) (k : String)
    (h2 : d.caps.dimmerGroup2 = false)
    (hth : d.thermostat = false ∨ s.thermostat.active = false ∨ d.thermostatOutput ≤ 1)
    (hk : k ∈ ["dimmer3", "dimmer3Brightness", "dimmer3Power",
               "dimmer4", "dimmer4Brightness", "dimmer4Power"]) :
    findEntry (applyPoll d s).props k = findEntry d.props k ∧
    (∀ (g1 g2 : Bool) (outputs : List Rat) (ps : PropStore) (dimmer : DimmerSnap),
      ¬((1 < dimmer.absolute ∧ g2 = true) ∨ (dimmer.absolute ≤ 1 ∧ g1 = true)) →
      pollDimmerStep g1 g2 outputs ps dimmer = ps) ∧
    (∀ (g1 : Bool) (outputs : List Rat) (ps : PropStore) (dimmer : DimmerSnap),
      1 < dimmer.absolute →
      pollDimmerStep g1 false outputs ps dimmer = ps) := by
  refine ⟨?_, ?_, ?_⟩
  · have hp : (applyPoll d s).props = pollAllSteps d s := rfl
    rw [hp]
    unfold pollAllSteps
    rw [h2]
    rw [pollThermoStep_preserves _ _ _ _ _ hk hth]
    rw [foldl_findEntry_invariant _ k (fun ps bl => pollBlindStep_other_keys _ _ _ ps bl _ hk)]
    rw [foldl_findEntry_invariant _ k (fun ps dim => pollDimmerStep_high_keys _ _ ps dim _ hk)]
    have hne : k ≠ "led" ∧ k ≠ "ledColor" ∧ k ≠ "temperature" ∧ k ≠ "lightLevel" := by
      fin_cases hk <;> exact ⟨by decide, by decide, by decide, by decide⟩
    rw [pollLedSteps_preserves _ _ _ hne.1 hne.2.1]
    rw [pollTemperatureStep_preserves _ _ _ hne.2.2.1]
    rw [pollBrightnessStep_preserves _ _ _ hne.2.2.2]
  · intro g1 g2 outputs ps dimmer hgate
    have hcond : ¬(((decide (1 < dimmer.absolute) && g2)
        || (decide (dimmer.absolute ≤ 1) && g1)) = true) := by
      simp only [Bool.or_eq_true, Bool.and_eq_true, decide_eq_true_eq]
      tauto
    unfold pollDimmerStep
    rw [if_neg hcond]
  · intro g1 outputs ps dimmer habs
    have hcond : ¬(((decide (1 < dimmer.absolute) && false)
        || (decide (dimmer.absolute ≤ 1) && g1)) = true) := by
      simp only [Bool.and_false, Bool.false_or, Bool.and_eq_true, decide_eq_true_eq]
      rintro ⟨hle, -⟩
      omega
    unfold pollDimmerStep
    rw [if_neg hcond]

/-- Witness for C6: the amended statement evaluated on a device with dimmer
group B absent and valve output 0, against a snapshot holding a dimmer
entry with absolute index 2. -/
theorem poll_dimmerGroup2_absent_gating_witness :
    findEntry (applyPoll deviceOut0 snapNoGroup2).props "dimmer3Power"
      = findEntry deviceOut0.props "dimmer3Power" ∧
    pollDimmerStep true false [0, 0, 7, 0] []
      { absolute := 2, isOn := true, value := 50 } = [] := by
  have h := poll_dimmerGroup2_absent_gating deviceOut0 snapNoGroup2 "dimmer3Power" rfl
    (Or.inr (Or.inr (by decide))) (by decide)
  exact ⟨h.1, h.2.2 true [0, 0, 7, 0] [] _ (by decide)⟩

/-- C6 counterexample: with dimmer group B absent but the thermostat valve
wired to output 2, a poll whose snapshot holds a dimmer entry of absolute
index 2 rewrites dimmer3Power (through the thermostat branch) from 0 to
7. -/
theorem poll_thermostat_writes_dimmer3Power :
    deviceNoGroup2.caps.dimmerGroup2 = false ∧
    ({ absolute := 2, isOn := true, value := 50 } : DimmerSnap) ∈ snapNoGroup2.dimmers ∧
    findVal deviceNoGroup2.props "dimmer3Power" = some (JSValue.num 0) ∧
    findVal (Dingz.poll deviceNoGroup2 (some snapNoGroup2)).1.props "dimmer3Power"
      = some (JSValue.num 7) :=
  ⟨rfl, List.mem_singleton.mpr rfl, rfl, rfl⟩

/-- `replaceFirst` rewrites the pattern exactly at the first position where
it occurs. -/
theorem replaceFirst_first_occurrence (pat repl : List Char) (hpat : pat ≠ []) :
    ∀ a b : List Char,
      (∀ i, i < a.length → pat.isPrefixOf ((a ++ (pat ++ b)).drop i) = false) →
      replaceFirst pat repl (a ++ (pat ++ b)) = a ++ (repl ++ b) := by
  intro a
  induction a with
  | nil =>
    intro b _
    cases pat with
    | nil => exact absurd rfl hpat
    | cons p pt =>
      show replaceFirst (p :: pt) repl ((p :: pt) ++ b) = repl ++ b
      have hpre : (p :: pt).isPrefixOf ((p :: pt) ++ b) = true := by
        rw [List.isPrefixOf_iff_prefix]
        exact List.prefix_append _ _
      rw [List.cons_append]
      simp only [replaceFirst]
      rw [← List.cons_append, hpre]
      simp [List.drop_left]
  | cons c a2 ih =>
    intro b hEarly
    have h0 : pat.isPrefixOf (c :: (a2 ++ (pat ++ b))) = false := by
      have h00 := hEarly 0 (by simp)
      simpa using h00
    have hrest : ∀ i, i < a2.length → pat.isPrefixOf ((a2 ++ (pat ++ b)).drop i) = false := by
      intro i hi
      have h01 := hEarly (i + 1) (by simpa using Nat.succ_lt_succ hi)
      simpa using h01
    show replaceFirst pat repl (c :: (a2 ++ (pat ++ b))) = c :: (a2 ++ (repl ++ b))
    simp only [replaceFirst]
    rw [if_neg (by simp [h0]), ih b hrest]

/-- C5: on a topic ending in `state/thermostat`, a payload whose first
occurrence of the malformed key `"target:"` sits at the decomposition
point, such that the repaired payload is valid JSON carrying a `target`
member, is rewritten to `"target":` before parsing; parsing then succeeds
and the parsed target value lands on the target-temperature property. -/
theorem thermostat_repair_parses_and_applies (topic : String) (a b : List Char)
    (message tgt : Json) (ps : PropStore)
    (htopic : jsEndsWith topic "state/thermostat" = true)
    (hEarly : ∀ i, i < a.length →
      thermostatPattern.isPrefixOf ((a ++ (thermostatPattern ++ b)).drop i) = false)
    (hparse : jsonParse (a ++ (thermostatReplacement ++ b)) = some message)
    (htgt : message.getField "target".data = some tgt)
    (hprop : propExists ps "targetTemperature" = true) :
    mqttParsePayload topic (a ++ (thermostatPattern ++ b)) = some message ∧
    findVal (applyThermostatPush ps message) "targetTemperature" = some (jsonToJS tgt) := by
  constructor
  · unfold mqttParsePayload mqttPreprocess
    rw [if_pos htopic]
    rw [replaceFirst_first_occurrence thermostatPattern thermostatReplacement (by decide) a b hEarly]
    exact hparse
  · unfold applyThermostatPush
    have hacc : jsAccess message "target" = jsonToJS tgt := by
      unfold jsAccess
      rw [htgt]
    rw [hacc]
    apply findVal_setVal_self
    rw [propExists_setVal, propExists_setVal]
    exact hprop

/-- Witness for C5: the payload `{"target:" 21}` is repaired, parses to an
object with target 21, and the handler stores 21 as the target
temperature. -/
theorem thermostat_repair_parses_and_applies_witness :
    mqttParsePayload "dingz/aabbcc112233/state/thermostat"
      ("\x7b".data ++ (thermostatPattern ++ " 21\x7d".data))
      = some (Json.obj [("target".data, Json.num "21".data)]) ∧
    findVal (applyThermostatPush propsThermo (Json.obj [("target".data, Json.num "21".data)]))
      "targetTemperature" = some (JSValue.num 21) := by
  have h := thermostat_repair_parses_and_applies "dingz/aabbcc112233/state/thermostat"
    "\x7b".data " 21\x7d".data
    (Json.obj [("target".data, Json.num "21".data)]) (Json.num "21".data) propsThermo
    (by decide) (by decide) rfl rfl (by decide)
  refine ⟨h.1, ?_⟩
  have h2 := h.2
  have h21 : numLitToRat "21".data = (21 : Rat) := by decide
  rw [show jsonToJS (Json.num "21".data) = JSValue.num (numLitToRat "21".data) from rfl, h21] at h2
  exact h2
